import Mathlib

/-!
Verification development for the Open Telco leaderboard transit repository.

The repository's core pipeline (schema validation, trajectory validation,
sample-count verification, review state machine, HuggingFace sync,
disposition) is described by the repository README and the specification;
the executable scripts themselves are not part of the shipped sources, so
the components are modelled here from the specification's wording.  The
website's TCI (Telco Capability Index) computation, which does ship in the
sources, is embedded directly from the two TypeScript copies.
-/

namespace OpenTelco

/-- The four leaderboard benchmarks: `teleqna`, `telelogs`, `telemath`,
`3gpp_tsg`. -/
inductive Benchmark where
  | teleqna
  | telelogs
  | telemath
  | tsg3gpp
deriving DecidableEq, Repr

/-- The fixed list of the four benchmarks. -/
def Benchmark.all : List Benchmark :=
  [.teleqna, .telelogs, .telemath, .tsg3gpp]

/-- A named validation failure: the check that failed plus a
human-readable reason. -/
structure Failure where
  name : String
  reason : String
deriving DecidableEq, Repr

/-- Modelled from the spec: trajectory record status (`success`/`error`);
the scripts that read trajectory JSON are not in the shipped sources. -/
inductive TrajStatus where
  | success
  | error
deriving DecidableEq, Repr

/-- Modelled from the spec: the error class carried by a failed
trajectory record; the spec distinguishes unrecoverable runtime errors
(e.g. an uncaught exception) from other errors. -/
inductive ErrorClass where
  | recoverable
  | unrecoverableRuntime
deriving DecidableEq, Repr

/-- Modelled from the spec: one per-sample execution record of a
trajectory bundle, carrying a `sample_id`, the benchmark it belongs to, a
completion status and an optional error payload. -/
structure TrajectoryRecord where
  sample_id : String
  benchmark : Benchmark
  status : TrajStatus
  error_detail : Option ErrorClass
deriving DecidableEq, Repr

/-- The `sample_id`s present in the trajectories of one benchmark. -/
def sampleIds (trajs : List TrajectoryRecord) (b : Benchmark) : List String :=
  (trajs.filter (fun r => r.benchmark = b)).map (fun r => r.sample_id)

/-- Reason string for missing sample coverage. -/
def incompleteReason : String := "incomplete benchmark coverage"

/-- Reason string for duplicated sample ids. -/
def duplicateReason : String := "duplicate sample evaluation"

/-- Reason string for sample ids outside the canonical set. -/
def unknownReason : String := "unknown sample id - stale benchmark version?"

/-- The canonical ids missing from the submitted trajectories of one
benchmark (`canonical − submitted`). -/
def missingIds (canonical : Benchmark → List String)
    (trajs : List TrajectoryRecord) (b : Benchmark) : List String :=
  ((canonical b).dedup).filter (fun id => ¬ id ∈ sampleIds trajs b)

/-- The submitted ids that are not in the canonical set of one benchmark
(`submitted − canonical`). -/
def extraIds (canonical : Benchmark → List String)
    (trajs : List TrajectoryRecord) (b : Benchmark) : List String :=
  ((sampleIds trajs b).dedup).filter (fun id => ¬ id ∈ canonical b)

/-- Modelled from the spec: the per-benchmark sample-ID comparison of the
Sample-Count Verifier (the validation script is not in the shipped
sources).  It compares the `sample_id`s present in the trajectories
against the canonical expected-sample-ID set of the benchmark: missing
ids, duplicated ids and unknown ids each produce a named failure. -/
def benchmarkSampleCheck (canonical : Benchmark → List String)
    (trajs : List TrajectoryRecord) (b : Benchmark) : List Failure :=
  (if missingIds canonical trajs b = [] then []
   else [⟨"sample_count", incompleteReason⟩])
    ++ (if (sampleIds trajs b).Nodup then []
        else [⟨"sample_count", duplicateReason⟩])
    ++ (if extraIds canonical trajs b = [] then []
        else [⟨"sample_count", unknownReason⟩])

/-- Modelled from the spec: one benchmark score cell of a model card,
the triple `[score, stderr, n_samples]`. -/
structure RawScoreEntry where
  score : ℚ
  stderr : ℚ
  n_samples : ℤ
deriving DecidableEq, Repr

/-- Modelled from the spec: a candidate model-card record as read from a
submitted parquet file (the validation script is not in the shipped
sources).  `none` in a field models a missing required column. -/
structure ModelCard where
  model : Option (List Char)
  scores : Benchmark → Option RawScoreEntry
  date : Option (List Char)

/-- A calendar date at day precision. -/
structure Date where
  year : ℕ
  month : ℕ
  day : ℕ
deriving DecidableEq, Repr

/-- Gregorian leap-year rule. -/
def isLeapYear (y : ℕ) : Bool :=
  (y % 4 == 0 && y % 100 != 0) || y % 400 == 0

/-- Number of days of month `m` in year `y`. -/
def daysInMonth (y m : ℕ) : ℕ :=
  if m = 2 then (if isLeapYear y then 29 else 28)
  else if m = 4 ∨ m = 6 ∨ m = 9 ∨ m = 11 then 30
  else 31

/-- Whether a parsed date is a valid calendar date. -/
def dateValid (d : Date) : Bool :=
  decide (1 ≤ d.month) && decide (d.month ≤ 12)
    && decide (1 ≤ d.day) && decide (d.day ≤ daysInMonth d.year d.month)

/-- Lexicographic comparison of calendar dates. -/
def dateLE (a b : Date) : Bool :=
  decide (a.year < b.year)
    || (a.year == b.year
        && (decide (a.month < b.month)
            || (a.month == b.month && decide (a.day ≤ b.day))))

/-- Numeric value of a decimal digit character. -/
def digitVal (c : Char) : ℕ := c.toNat - 48

/-- Modelled from the spec: parse an ISO-8601 `YYYY-MM-DD` string at day
precision. -/
def parseDate : List Char → Option Date
  | [y1, y2, y3, y4, s1, m1, m2, s2, d1, d2] =>
    if y1.isDigit && y2.isDigit && y3.isDigit && y4.isDigit
        && (s1 == '-') && m1.isDigit && m2.isDigit
        && (s2 == '-') && d1.isDigit && d2.isDigit then
      some ⟨1000 * digitVal y1 + 100 * digitVal y2 + 10 * digitVal y3 + digitVal y4,
            10 * digitVal m1 + digitVal m2,
            10 * digitVal d1 + digitVal d2⟩
    else none
  | _ => none

/-- The fixed recognized-provider set of the README. -/
def recognizedProviders : List (List Char) :=
  ["Openai".toList, "Anthropic".toList, "Google".toList, "Mistral".toList,
   "Deepseek".toList, "Meta".toList, "Cohere".toList, "Together".toList,
   "Openrouter".toList, "Groq".toList, "Fireworks".toList]

/-- The tail a model identifier must end with for provider `p`:
a space, an opening parenthesis, the provider and a closing
parenthesis. -/
def providerTail (p : List Char) : List Char :=
  ' ' :: '(' :: (p ++ [')'])

/-- Modelled from the spec: the `"name (Provider)"` pattern check of the
model identifier, with the provider drawn from the recognized-provider
set and a non-empty name part. -/
def matchesModelId (m : List Char) : Bool :=
  recognizedProviders.any fun p =>
    decide (providerTail p <:+ m) && decide ((providerTail p).length < m.length)

/-- The `"name (Provider)"` pattern as a proposition: the identifier is a
non-empty name followed by a recognized provider in parentheses. -/
def MatchesModelIdSpec (m : List Char) : Prop :=
  ∃ p ∈ recognizedProviders, ∃ nm : List Char, nm ≠ [] ∧ m = nm ++ providerTail p

/-- Modelled from the spec: the model-identifier column check of the
Schema Validator. -/
def modelCheck (card : ModelCard) : List Failure :=
  match card.model with
  | none => [⟨"model", "missing column"⟩]
  | some m => if matchesModelId m then [] else [⟨"model", "invalid model identifier"⟩]

/-- Modelled from the spec: the per-benchmark score-triple check of the
Schema Validator: numeric score in `[0, 100]`, non-negative stderr,
positive integer sample count. -/
def scoreEntryCheck (e : RawScoreEntry) : List Failure :=
  (if 0 ≤ e.score ∧ e.score ≤ 100 then [] else [⟨"score", "score out of range"⟩])
    ++ (if 0 ≤ e.stderr then [] else [⟨"score", "negative stderr"⟩])
    ++ (if 0 < e.n_samples then [] else [⟨"score", "non-positive sample count"⟩])

/-- Modelled from the spec: one benchmark column of the Schema
Validator: the column must be present and its triple must pass the
score-triple check. -/
def columnCheck (card : ModelCard) (b : Benchmark) : List Failure :=
  match card.scores b with
  | none => [⟨"column", "missing column"⟩]
  | some e => scoreEntryCheck e

/-- Modelled from the spec: the `submitted_at` check of the Schema
Validator: the column is present, parses as a valid calendar date and is
not in the future relative to `today`. -/
def dateCheck (today : Date) (card : ModelCard) : List Failure :=
  match card.date with
  | none => [⟨"date", "missing column"⟩]
  | some d =>
    match parseDate d with
    | none => [⟨"date", "unparseable date"⟩]
    | some dt =>
      (if dateValid dt then [] else [⟨"date", "invalid calendar date"⟩])
        ++ (if dateLE dt today then [] else [⟨"date", "date in the future"⟩])

/-- Modelled from the spec: the Schema Validator.  It checks a candidate
model-card record against the required column contract and returns a
list of named failures (empty = pass); it is a pure function of the
record and the current date. -/
def schemaValidator (today : Date) (card : ModelCard) : List Failure :=
  modelCheck card
    ++ columnCheck card .teleqna ++ columnCheck card .telelogs
    ++ columnCheck card .telemath ++ columnCheck card .tsg3gpp
    ++ dateCheck today card

/-- Modelled from the spec: the per-record check of the Trajectory
Validator: a non-success record must carry an error payload, and no
record may report an unrecoverable runtime error class. -/
def recordCheck (r : TrajectoryRecord) : List Failure :=
  (match r.status, r.error_detail with
   | .error, none => [⟨"trajectory", "missing error payload"⟩]
   | _, _ => [])
    ++ (match r.error_detail with
        | some .unrecoverableRuntime => [⟨"trajectory", "unrecoverable runtime error"⟩]
        | _ => [])

/-- Modelled from the spec: the Trajectory Validator, collecting the
failures of every record of the bundle (the validation script is not in
the shipped sources). -/
def trajectoryValidator (trajs : List TrajectoryRecord) : List Failure :=
  trajs.foldr (fun r acc => recordCheck r ++ acc) []

/-- Modelled from the spec: a submission bundle — the model card plus
the trajectory records. -/
structure SubmissionBundle where
  card : ModelCard
  trajectories : List TrajectoryRecord

/-- The number of distinct `sample_id`s in the trajectories of one
benchmark. -/
def distinctSampleCount (trajs : List TrajectoryRecord) (b : Benchmark) : ℕ :=
  ((sampleIds trajs b).dedup).length

/-- The canonical expected sample count of a benchmark: the size of its
canonical expected-sample-ID set. -/
def expectedSampleCount (canonical : Benchmark → List String) (b : Benchmark) : ℕ :=
  ((canonical b).dedup).length

/-- Modelled from the spec: the reported-`n_samples` invariant check of
the Sample-Count Verifier: the `n_samples` reported in the model card
for a benchmark must equal the distinct trajectory `sample_id` count of
that benchmark. -/
def nSamplesCheck (bundle : SubmissionBundle) (b : Benchmark) : List Failure :=
  match bundle.card.scores b with
  | none => []
  | some e =>
    if e.n_samples = (distinctSampleCount bundle.trajectories b : ℤ) then []
    else [⟨"sample_count", "n_samples does not match trajectory sample count"⟩]

/-- Modelled from the spec: all sample-count failures of one benchmark:
the sample-ID comparison plus the reported-`n_samples` invariant. -/
def perBenchmarkSampleFailures (canonical : Benchmark → List String)
    (bundle : SubmissionBundle) (b : Benchmark) : List Failure :=
  benchmarkSampleCheck canonical bundle.trajectories b ++ nSamplesCheck bundle b

/-- Modelled from the spec: the Sample-Count Verifier over a whole
submission, joining the per-benchmark failures of the four
benchmarks. -/
def sampleCountVerifier (canonical : Benchmark → List String)
    (bundle : SubmissionBundle) : List Failure :=
  perBenchmarkSampleFailures canonical bundle .teleqna
    ++ perBenchmarkSampleFailures canonical bundle .telelogs
    ++ perBenchmarkSampleFailures canonical bundle .telemath
    ++ perBenchmarkSampleFailures canonical bundle .tsg3gpp

/-- Result of evaluating one submission: the named failures plus the
overall boolean. -/
structure ValidationVerdict where
  failures : List Failure
  overall : Bool
deriving DecidableEq, Repr

/-- Modelled from the spec: the Submission Evaluator, composing the
Schema Validator, the Trajectory Validator and the Sample-Count Verifier
into one `ValidationVerdict`. -/
def submissionEvaluator (today : Date) (canonical : Benchmark → List String)
    (bundle : SubmissionBundle) : ValidationVerdict :=
  let fs := schemaValidator today bundle.card
    ++ trajectoryValidator bundle.trajectories
    ++ sampleCountVerifier canonical bundle
  ⟨fs, fs.isEmpty⟩

/-- Modelled from the spec: states of the Review State Machine. -/
inductive ReviewState where
  | Created
  | Validating
  | ReadyForReview
  | NeedsWork
  | Approved
  | Rejected
  | Synced
  | Closed
deriving DecidableEq, Repr

/-- Modelled from the spec: the listed transition relation of the
Review State Machine (every edge of section 4.5). -/
def allowedTransition : ReviewState → ReviewState → Bool
  | .Created, .Validating => true
  | .Validating, .ReadyForReview => true
  | .Validating, .NeedsWork => true
  | .NeedsWork, .Validating => true
  | .ReadyForReview, .Approved => true
  | .ReadyForReview, .Rejected => true
  | .Approved, .Synced => true
  | .Rejected, .Closed => true
  | _, _ => false

/-- Terminal states of the Review State Machine. -/
def isTerminal : ReviewState → Bool
  | .Synced => true
  | .Closed => true
  | _ => false

/-- Modelled from the spec: the error raised on a disallowed transition
attempt. -/
inductive TransitionError where
  | InvalidTransition
deriving DecidableEq, Repr

/-- Modelled from the spec: one submission's journey through review:
current state, transition history, the owned submission bundle, the
latest validation verdict, and whether the transit artifact is still
held. -/
structure ReviewCase where
  state : ReviewState
  history : List (ReviewState × ReviewState)
  bundle : SubmissionBundle
  latestVerdict : Option ValidationVerdict
  artifactPresent : Bool

/-- Modelled from the spec: a transition attempt of the Review State
Machine.  A listed transition moves the case to the target state and
records it in the history; a disallowed attempt fails with
`InvalidTransition` and returns the case unchanged. -/
def attemptTransition (c : ReviewCase) (target : ReviewState) :
    ReviewCase × Option TransitionError :=
  if allowedTransition c.state target then
    ({ c with state := target, history := c.history ++ [(c.state, target)] }, none)
  else
    (c, some .InvalidTransition)

/-- Modelled from the spec: running the Submission Evaluator on a case
and recording the verdict on it. -/
def evaluateAndRecord (today : Date) (canonical : Benchmark → List String)
    (c : ReviewCase) : ReviewCase :=
  { c with latestVerdict := some (submissionEvaluator today canonical c.bundle) }

/-- Modelled from the spec: a terminal transition with its disposition.
The case reaches the terminal target state, with the transit artifact
discarded, only when the transition is listed, the target is terminal
and the discard succeeds; if the discard fails the case is returned
unchanged (all-or-nothing). -/
def finalizeCase (c : ReviewCase) (target : ReviewState)
    (discardSucceeds : Bool) : ReviewCase × Bool :=
  if allowedTransition c.state target && isTerminal target then
    if discardSucceeds then
      ({ c with state := target,
                history := c.history ++ [(c.state, target)],
                artifactPresent := false }, true)
    else (c, false)
  else (c, false)

/-- Modelled from the spec: the canonical serialized form the Sync
Client hashes — scores plus model identifier plus date.  The hash is
modelled as the serialization itself (an injective hash). -/
def contentHash (card : ModelCard) : String :=
  let strField : Option (List Char) → String := fun o =>
    match o with
    | none => ""
    | some cs => String.mk cs
  let entry : Option RawScoreEntry → String := fun o =>
    match o with
    | none => "-"
    | some e => toString e.score ++ "," ++ toString e.stderr ++ "," ++ toString e.n_samples
  strField card.model ++ "|" ++ entry (card.scores .teleqna)
    ++ "|" ++ entry (card.scores .telelogs)
    ++ "|" ++ entry (card.scores .telemath)
    ++ "|" ++ entry (card.scores .tsg3gpp)
    ++ "|" ++ strField card.date

/-- Modelled from the spec: the permanent store plus the idempotency
ledger owned by the Sync Client.  The store holds the written records
keyed by content hash; the ledger holds the `SyncRecord` hashes. -/
structure SyncState where
  store : List (String × ModelCard)
  ledger : List String

/-- Number of permanent-store records carrying a given content hash. -/
def countHash (store : List (String × ModelCard)) (h : String) : ℕ :=
  (store.filter (fun p => p.1 == h)).length

/-- Modelled from the spec: the Sync Client operation `sync`.  It
computes the content hash of the submission; if a `SyncRecord` with that
hash is already in the ledger it returns success without writing,
otherwise it writes the record to the permanent store and then writes
the `SyncRecord` to the ledger. -/
def sync (st : SyncState) (card : ModelCard) : SyncState × Bool :=
  let h := contentHash card
  if h ∈ st.ledger then (st, true)
  else ({ store := st.store ++ [(h, card)], ledger := h :: st.ledger }, true)

/-- JavaScript `Math.round`: half-way values round toward positive
infinity. -/
def jsRound (x : ℚ) : ℚ := ((⌊x + 1/2⌋ : ℤ) : ℚ)

namespace Dashboard

/-- One leaderboard row as parsed by
`TelcoCapabilityIndex`'s `parseCSV`; floating-point numbers are embedded
as rationals and `null` as `none`. -/
structure LeaderboardEntry where
  rank : ℤ
  provider : String
  model : String
  repo : String
  mean : Option ℚ
  teleqna : Option ℚ
  telelogs : Option ℚ
  telemath : Option ℚ
  tsg : Option ℚ
  teleyaml : Option ℚ

/-- The `benchmarkDifficulty` record of `calculateTCI` (lookup of an
absent key is never reached by the callers). -/
def benchmarkDifficulty (key : String) : ℚ :=
  if key == "teleqna" then 7/10
  else if key == "telelogs" then 3/10
  else if key == "telemath" then 4/10
  else if key == "tsg" then 4/10
  else 0

/-- The `benchmarkSlope` record of `calculateTCI`. -/
def benchmarkSlope (key : String) : ℚ :=
  if key == "teleqna" then 12/10
  else if key == "telelogs" then 15/10
  else if key == "telemath" then 13/10
  else if key == "tsg" then 12/10
  else 0

/-- Embedding of `calculateTCI` from the `TelcoCapabilityIndex` component, embedded
over rationals; `Math.log` is abstracted as the `log` parameter (the
statements proved below hold for every such function). -/
def calculateTCI (log : ℚ → ℚ) (entry : LeaderboardEntry) : Option ℚ :=
  let scores := [entry.teleqna, entry.telelogs, entry.telemath, entry.tsg].filterMap id
  if scores.length < 3 then none
  else
    let benchmarks : List (String × Option ℚ) :=
      [("teleqna", entry.teleqna), ("telelogs", entry.telelogs),
       ("telemath", entry.telemath), ("tsg", entry.tsg)]
    let acc := benchmarks.foldl (fun acc kv =>
      match kv.2 with
      | none => acc
      | some v =>
        let score := v / 100
        let difficulty := 1 - benchmarkDifficulty kv.1
        let slope := benchmarkSlope kv.1
        let adjustedScore := max (1/100) (min (99/100) score)
        let logitScore := log (adjustedScore / (1 - adjustedScore))
        let weight := difficulty * slope
        (acc.1 + (logitScore + difficulty * 2) * weight, acc.2 + weight)) (0, 0)
    let rawCapability := acc.1 / acc.2
    let tci := 115 + rawCapability * 20
    some (jsRound (tci * 10) / 10)

/-- The number of non-null scores among the four TCI benchmarks of an
entry. -/
def countScores (entry : LeaderboardEntry) : ℕ :=
  ([entry.teleqna, entry.telelogs, entry.telemath, entry.tsg].filterMap id).length

/-- The `totalWeight` accumulated by `calculateTCI` over the non-null
benchmarks of an entry. -/
def totalWeight (entry : LeaderboardEntry) : ℚ :=
  let benchmarks : List (String × Option ℚ) :=
    [("teleqna", entry.teleqna), ("telelogs", entry.telelogs),
     ("telemath", entry.telemath), ("tsg", entry.tsg)]
  benchmarks.foldl (fun acc kv =>
    match kv.2 with
    | none => acc
    | some _ => acc + (1 - benchmarkDifficulty kv.1) * benchmarkSlope kv.1) 0

end Dashboard

namespace ModelsPage

/-- One leaderboard row as parsed by `ModelsPage`'s `parseCSV`; this
interface additionally carries the computed `tci` field. -/
structure LeaderboardEntry where
  rank : ℤ
  provider : String
  model : String
  repo : String
  mean : Option ℚ
  teleqna : Option ℚ
  telelogs : Option ℚ
  telemath : Option ℚ
  tsg : Option ℚ
  teleyaml : Option ℚ
  tci : Option ℚ

/-- The `benchmarkDifficulty` record of `ModelsPage.calculateTCI`. -/
def benchmarkDifficulty (key : String) : ℚ :=
  if key == "teleqna" then 7/10
  else if key == "telelogs" then 3/10
  else if key == "telemath" then 4/10
  else if key == "tsg" then 4/10
  else 0

/-- The `benchmarkSlope` record of `ModelsPage.calculateTCI`. -/
def benchmarkSlope (key : String) : ℚ :=
  if key == "teleqna" then 12/10
  else if key == "telelogs" then 15/10
  else if key == "telemath" then 13/10
  else if key == "tsg" then 12/10
  else 0

/-- Embedding of `calculateTCI` from `ModelsPage.tsx`, embedded over rationals with
`Math.log` abstracted as the `log` parameter. -/
def calculateTCI (log : ℚ → ℚ) (entry : LeaderboardEntry) : Option ℚ :=
  let scores := [entry.teleqna, entry.telelogs, entry.telemath, entry.tsg].filterMap id
  if scores.length < 3 then none
  else
    let benchmarks : List (String × Option ℚ) :=
      [("teleqna", entry.teleqna), ("telelogs", entry.telelogs),
       ("telemath", entry.telemath), ("tsg", entry.tsg)]
    let acc := benchmarks.foldl (fun acc kv =>
      match kv.2 with
      | none => acc
      | some v =>
        let score := v / 100
        let difficulty := 1 - benchmarkDifficulty kv.1
        let slope := benchmarkSlope kv.1
        let adjustedScore := max (1/100) (min (99/100) score)
        let logitScore := log (adjustedScore / (1 - adjustedScore))
        let weight := difficulty * slope
        (acc.1 + (logitScore + difficulty * 2) * weight, acc.2 + weight)) (0, 0)
    let rawCapability := acc.1 / acc.2
    let tci := 115 + rawCapability * 20
    some (jsRound (tci * 10) / 10)

end ModelsPage

/-- A model card with every field absent, used in concrete instances of
the theorems below. -/
def emptyCard : ModelCard := ⟨none, fun _ => none, none⟩

/-- The empty submission bundle. -/
def emptyBundle : SubmissionBundle := ⟨emptyCard, []⟩

/-- A freshly created review case. -/
def caseCreated : ReviewCase := ⟨.Created, [], emptyBundle, none, true⟩

/-- A review case sitting in `Approved`. -/
def caseApproved : ReviewCase := { caseCreated with state := .Approved }

/-- The empty sync state: empty permanent store, empty ledger. -/
def emptySyncState : SyncState := ⟨[], []⟩

/-- A concrete dashboard leaderboard entry with all four benchmark
scores present. -/
def sampleEntry : Dashboard.LeaderboardEntry :=
  ⟨1, "OpenAI", "GPT-5", "", none, some 80, some 60, some 70, some 65, none⟩

/-- The same concrete entry in the `ModelsPage` record shape. -/
def sampleEntryMP : ModelsPage.LeaderboardEntry :=
  ⟨1, "OpenAI", "GPT-5", "", none, some 80, some 60, some 70, some 65, none, none⟩

/-- A bundle whose card reports `n_samples = 2` for `teleqna` while its
trajectories contain a single distinct sample id. -/
def mismatchBundle : SubmissionBundle :=
  ⟨⟨some "GPT-5 (Openai)".toList,
    fun _ => some ⟨50, 1, 2⟩,
    some "2025-01-01".toList⟩,
   [⟨"q_1", .teleqna, .success, none⟩]⟩

/-- A canonical sample-set assignment with one expected id per
benchmark. -/
def oneIdCanonical : Benchmark → List String := fun _ => ["q_1"]

/-! ## Theorems -/

/-- Claim C3: a transition attempt not in the listed transition relation
(for example `Created → Approved`, or approving a case still in
`Validating`) fails with an `InvalidTransition` error and leaves the
case — in particular its state — unchanged. -/
theorem attemptTransition_invalid (c : ReviewCase) (t : ReviewState)
    (h : allowedTransition c.state t = false) :
    (attemptTransition c t).1 = c ∧
      (attemptTransition c t).2 = some TransitionError.InvalidTransition := by
  simp [attemptTransition, h]

/-- Concrete instance of the invalid-transition theorem: attempting
`Approved` directly from `Created` errors and leaves the case
unchanged. -/
theorem attemptTransition_invalid_witness :
    allowedTransition caseCreated.state ReviewState.Approved = false ∧
      (attemptTransition caseCreated ReviewState.Approved).1 = caseCreated ∧
      (attemptTransition caseCreated ReviewState.Approved).2
        = some TransitionError.InvalidTransition :=
  ⟨rfl, attemptTransition_invalid caseCreated ReviewState.Approved rfl⟩

/-- Claim C8: disposition is all-or-nothing and last.  For every listed
terminal transition, a failing discard leaves the case unchanged in its
pre-terminal state, and the case's state equals the terminal target iff
the discard succeeded, in which case the transit artifact is gone. -/
theorem finalizeCase_all_or_nothing (c : ReviewCase) (tgt : ReviewState)
    (hterm : isTerminal tgt = true)
    (hallow : allowedTransition c.state tgt = true) :
    (finalizeCase c tgt false).1 = c ∧
      isTerminal c.state = false ∧
      (finalizeCase c tgt true).1.state = tgt ∧
      (finalizeCase c tgt true).1.artifactPresent = false ∧
      ∀ d : Bool, ((finalizeCase c tgt d).1.state = tgt ↔ d = true) := by
  have hpre : isTerminal c.state = false ∧ c.state ≠ tgt := by
    rcases c with ⟨s, hist, bu, v, a⟩
    cases s <;> cases tgt <;> simp_all [allowedTransition, isTerminal]
  refine ⟨?_, hpre.1, ?_, ?_, ?_⟩
  · simp [finalizeCase, hallow, hterm]
  · simp [finalizeCase, hallow, hterm]
  · simp [finalizeCase, hallow, hterm]
  · intro d
    cases d
    · simp [finalizeCase, hallow, hterm]
      exact fun hc => hpre.2 hc
    · simp [finalizeCase, hallow, hterm]

/-- Concrete instance of the all-or-nothing disposition theorem, at the
terminal transition `Approved → Synced`. -/
theorem finalizeCase_all_or_nothing_witness :
    isTerminal ReviewState.Synced = true ∧
      allowedTransition caseApproved.state ReviewState.Synced = true ∧
      (finalizeCase caseApproved ReviewState.Synced false).1 = caseApproved ∧
      (finalizeCase caseApproved ReviewState.Synced true).1.state
        = ReviewState.Synced := by
  have h := finalizeCase_all_or_nothing caseApproved ReviewState.Synced rfl rfl
  exact ⟨rfl, rfl, h.1, h.2.2.1⟩

/-- Claim C5: the Submission Evaluator is deterministic and idempotent:
re-running it on an unchanged case records the same verdict and leaves
the already-evaluated case fixed. -/
theorem submissionEvaluator_idempotent (today : Date)
    (canonical : Benchmark → List String) (c : ReviewCase) :
    evaluateAndRecord today canonical (evaluateAndRecord today canonical c)
        = evaluateAndRecord today canonical c ∧
      (evaluateAndRecord today canonical c).latestVerdict
        = some (submissionEvaluator today canonical c.bundle) := by
  constructor <;> simp [evaluateAndRecord]

/-- Claim C2: sync is at-most-once.  Starting from a state whose ledger
and permanent store know nothing of the submission's content hash,
syncing twice leaves exactly one record with that hash in the permanent
store; the ledger holds the `SyncRecord` after the first call and the
second call returns success without writing anything. -/
theorem sync_at_most_once (st : SyncState) (card : ModelCard)
    (h1 : contentHash card ∉ st.ledger)
    (h2 : countHash st.store (contentHash card) = 0) :
    contentHash card ∈ (sync st card).1.ledger ∧
      (sync (sync st card).1 card).1 = (sync st card).1 ∧
      (sync (sync st card).1 card).2 = true ∧
      countHash (sync (sync st card).1 card).1.store (contentHash card) = 1 := by
  have hs1 : sync st card
      = ({ store := st.store ++ [(contentHash card, card)],
           ledger := contentHash card :: st.ledger }, true) := by
    simp [sync, h1]
  have hmem : contentHash card ∈ (sync st card).1.ledger := by
    rw [hs1]; exact List.mem_cons_self _ _
  have hs2 : sync (sync st card).1 card = ((sync st card).1, true) := by
    rw [sync, if_pos hmem]
  refine ⟨hmem, by rw [hs2], by rw [hs2], ?_⟩
  rw [hs2, hs1]
  simp [countHash, List.filter_append] at h2 ⊢
  exact h2

/-- Concrete instance of the at-most-once sync theorem, from the empty
sync state. -/
theorem sync_at_most_once_witness :
    contentHash emptyCard ∉ emptySyncState.ledger ∧
      countHash emptySyncState.store (contentHash emptyCard) = 0 ∧
      countHash (sync (sync emptySyncState emptyCard).1 emptyCard).1.store
        (contentHash emptyCard) = 1 := by
  have h := sync_at_most_once emptySyncState emptyCard
    (by simp [emptySyncState]) rfl
  exact ⟨by simp [emptySyncState], rfl, h.2.2.2⟩

/-- The list `missingIds` is empty exactly when the canonical set is contained in
the submitted set. -/
theorem missingIds_eq_nil_iff (canonical : Benchmark → List String)
    (trajs : List TrajectoryRecord) (b : Benchmark) :
    missingIds canonical trajs b = [] ↔
      (canonical b).toFinset ⊆ (sampleIds trajs b).toFinset := by
  simp [missingIds, List.filter_eq_nil_iff, Finset.subset_iff]

/-- The list `extraIds` is empty exactly when the submitted set is contained in
the canonical set. -/
theorem extraIds_eq_nil_iff (canonical : Benchmark → List String)
    (trajs : List TrajectoryRecord) (b : Benchmark) :
    extraIds canonical trajs b = [] ↔
      (sampleIds trajs b).toFinset ⊆ (canonical b).toFinset := by
  simp [extraIds, List.filter_eq_nil_iff, Finset.subset_iff]

/-- The per-benchmark sample check passes exactly when the submitted
sample-id set equals the canonical set and no id is duplicated. -/
theorem benchmarkSampleCheck_eq_nil_iff (canonical : Benchmark → List String)
    (trajs : List TrajectoryRecord) (b : Benchmark) :
    benchmarkSampleCheck canonical trajs b = [] ↔
      ((sampleIds trajs b).toFinset = (canonical b).toFinset ∧
        (sampleIds trajs b).Nodup) := by
  rw [Finset.Subset.antisymm_iff, ← missingIds_eq_nil_iff, ← extraIds_eq_nil_iff]
  unfold benchmarkSampleCheck
  by_cases h1 : missingIds canonical trajs b = [] <;>
    by_cases h2 : (sampleIds trajs b).Nodup <;>
      by_cases h3 : extraIds canonical trajs b = [] <;>
        simp [h1, h2, h3]

/-- Claim C1: the Sample-Count Verifier's per-benchmark check passes iff
the submitted sample-id set exactly equals the canonical set with no
duplicates; missing ids produce the failure reason "incomplete benchmark
coverage", duplicated ids the reason "duplicate sample evaluation", and
ids outside the canonical set an unknown-sample-id reason. -/
theorem benchmarkSampleCheck_pass_iff (canonical : Benchmark → List String)
    (trajs : List TrajectoryRecord) (b : Benchmark) :
    (benchmarkSampleCheck canonical trajs b = [] ↔
      ((sampleIds trajs b).toFinset = (canonical b).toFinset ∧
        (sampleIds trajs b).Nodup)) ∧
      (Failure.mk "sample_count" incompleteReason
          ∈ benchmarkSampleCheck canonical trajs b ↔
        ¬ (canonical b).toFinset ⊆ (sampleIds trajs b).toFinset) ∧
      (Failure.mk "sample_count" duplicateReason
          ∈ benchmarkSampleCheck canonical trajs b ↔
        ¬ (sampleIds trajs b).Nodup) ∧
      (Failure.mk "sample_count" unknownReason
          ∈ benchmarkSampleCheck canonical trajs b ↔
        ¬ (sampleIds trajs b).toFinset ⊆ (canonical b).toFinset) := by
  refine ⟨benchmarkSampleCheck_eq_nil_iff canonical trajs b, ?_, ?_, ?_⟩
  · rw [← missingIds_eq_nil_iff canonical trajs b]
    unfold benchmarkSampleCheck
    by_cases h1 : missingIds canonical trajs b = [] <;>
      by_cases h2 : (sampleIds trajs b).Nodup <;>
        by_cases h3 : extraIds canonical trajs b = [] <;>
          simp [h1, h2, h3, incompleteReason, duplicateReason, unknownReason]
  · unfold benchmarkSampleCheck
    by_cases h1 : missingIds canonical trajs b = [] <;>
      by_cases h2 : (sampleIds trajs b).Nodup <;>
        by_cases h3 : extraIds canonical trajs b = [] <;>
          simp [h1, h2, h3, incompleteReason, duplicateReason, unknownReason]
  · rw [← extraIds_eq_nil_iff canonical trajs b]
    unfold benchmarkSampleCheck
    by_cases h1 : missingIds canonical trajs b = [] <;>
      by_cases h2 : (sampleIds trajs b).Nodup <;>
        by_cases h3 : extraIds canonical trajs b = [] <;>
          simp [h1, h2, h3, incompleteReason, duplicateReason, unknownReason]

/-- The whole-submission Sample-Count Verifier passes exactly when every
benchmark's combined sample failures are empty. -/
theorem sampleCountVerifier_eq_nil_iff (canonical : Benchmark → List String)
    (bundle : SubmissionBundle) :
    sampleCountVerifier canonical bundle = [] ↔
      ∀ b : Benchmark, perBenchmarkSampleFailures canonical bundle b = [] := by
  unfold sampleCountVerifier
  simp only [List.append_eq_nil]
  constructor
  · rintro ⟨⟨⟨h1, h2⟩, h3⟩, h4⟩ b
    cases b <;> assumption
  · intro h
    exact ⟨⟨⟨h _, h _⟩, h _⟩, h _⟩

/-- Claim C7: if the reported `n_samples` of a benchmark differs from
the distinct trajectory sample-id count, or that count differs from the
canonical expected sample count, the Sample-Count Verifier fails the
submission. -/
theorem sampleCountVerifier_mismatch_fails (canonical : Benchmark → List String)
    (bundle : SubmissionBundle) (b : Benchmark) (e : RawScoreEntry)
    (hb : bundle.card.scores b = some e)
    (hmis : e.n_samples ≠ (distinctSampleCount bundle.trajectories b : ℤ) ∨
      distinctSampleCount bundle.trajectories b ≠ expectedSampleCount canonical b) :
    sampleCountVerifier canonical bundle ≠ [] := by
  intro hnil
  rw [sampleCountVerifier_eq_nil_iff] at hnil
  have hper := hnil b
  unfold perBenchmarkSampleFailures at hper
  rw [List.append_eq_nil] at hper
  obtain ⟨hchk, hns⟩ := hper
  rcases hmis with hmis | hmis
  · unfold nSamplesCheck at hns
    rw [hb] at hns
    simp [hmis] at hns
  · obtain ⟨hset, hnd⟩ := (benchmarkSampleCheck_eq_nil_iff canonical
      bundle.trajectories b).mp hchk
    apply hmis
    unfold distinctSampleCount expectedSampleCount
    rw [← List.card_toFinset, ← List.card_toFinset, hset]

/-- Concrete instance of the mismatch theorem: a card reporting
`n_samples = 2` for `teleqna` over trajectories holding a single sample
id fails the Sample-Count Verifier. -/
theorem sampleCountVerifier_mismatch_fails_witness :
    mismatchBundle.card.scores Benchmark.teleqna = some ⟨50, 1, 2⟩ ∧
      (RawScoreEntry.n_samples ⟨50, 1, 2⟩
        ≠ (distinctSampleCount mismatchBundle.trajectories Benchmark.teleqna : ℤ)) ∧
      sampleCountVerifier oneIdCanonical mismatchBundle ≠ [] := by
  refine ⟨rfl, by decide, ?_⟩
  exact sampleCountVerifier_mismatch_fails oneIdCanonical mismatchBundle
    Benchmark.teleqna ⟨50, 1, 2⟩ rfl (Or.inl (by decide))

/-- Claim C6: the overall `ValidationVerdict` of the Submission
Evaluator is true iff the Schema Validator, the Trajectory Validator and
the Sample-Count Verifier all pass for all four benchmarks. -/
theorem submissionEvaluator_overall_iff (today : Date)
    (canonical : Benchmark → List String) (bundle : SubmissionBundle) :
    (submissionEvaluator today canonical bundle).overall = true ↔
      (schemaValidator today bundle.card = [] ∧
        trajectoryValidator bundle.trajectories = [] ∧
        ∀ b : Benchmark, perBenchmarkSampleFailures canonical bundle b = []) := by
  show (schemaValidator today bundle.card
      ++ trajectoryValidator bundle.trajectories
      ++ sampleCountVerifier canonical bundle).isEmpty = true ↔ _
  rw [List.isEmpty_iff, List.append_eq_nil, List.append_eq_nil,
    sampleCountVerifier_eq_nil_iff]
  constructor
  · rintro ⟨⟨h1, h2⟩, h3⟩
    exact ⟨h1, h2, h3⟩
  · rintro ⟨h1, h2, h3⟩
    exact ⟨⟨h1, h2⟩, h3⟩

/-- The model-identifier boolean check agrees with the
`"name (Provider)"` pattern proposition. -/
theorem matchesModelId_iff (m : List Char) :
    matchesModelId m = true ↔ MatchesModelIdSpec m := by
  unfold matchesModelId MatchesModelIdSpec
  rw [List.any_eq_true]
  constructor
  · rintro ⟨p, hp, hcond⟩
    rw [Bool.and_eq_true, decide_eq_true_iff, decide_eq_true_iff] at hcond
    obtain ⟨⟨t, ht⟩, hlen⟩ := hcond
    refine ⟨p, hp, t, ?_, ht.symm⟩
    rintro rfl
    rw [List.nil_append] at ht
    rw [ht] at hlen
    exact lt_irrefl _ hlen
  · rintro ⟨p, hp, nm, hnm, rfl⟩
    refine ⟨p, hp, ?_⟩
    rw [Bool.and_eq_true, decide_eq_true_iff, decide_eq_true_iff]
    refine ⟨⟨nm, rfl⟩, ?_⟩
    rw [List.length_append]
    have : 0 < nm.length := List.length_pos.mpr hnm
    omega

/-- The model-identifier column check passes exactly when the column is
present and matches the pattern. -/
theorem modelCheck_eq_nil_iff (card : ModelCard) :
    modelCheck card = [] ↔
      ∃ m, card.model = some m ∧ MatchesModelIdSpec m := by
  unfold modelCheck
  cases hm : card.model with
  | none => simp
  | some m =>
    by_cases h : matchesModelId m = true
    · simp [h, (matchesModelId_iff m).mp h]
    · simp only [Bool.not_eq_true] at h
      simp only [h]
      constructor
      · intro hc
        simp at hc
      · rintro ⟨m', hm', hspec⟩
        obtain rfl : m = m' := by injection hm'
        have := (matchesModelId_iff m).mpr hspec
        rw [this] at h
        exact absurd h (by simp)

/-- The score-triple check passes exactly when score, stderr and sample
count are each in range. -/
theorem scoreEntryCheck_eq_nil_iff (e : RawScoreEntry) :
    scoreEntryCheck e = [] ↔
      (0 ≤ e.score ∧ e.score ≤ 100 ∧ 0 ≤ e.stderr ∧ 0 < e.n_samples) := by
  unfold scoreEntryCheck
  by_cases h1 : 0 ≤ e.score ∧ e.score ≤ 100 <;>
    by_cases h2 : 0 ≤ e.stderr <;>
      by_cases h3 : 0 < e.n_samples <;>
        simp [h1, h2, h3]

/-- One benchmark column check passes exactly when the column is present
with an in-range triple. -/
theorem columnCheck_eq_nil_iff (card : ModelCard) (b : Benchmark) :
    columnCheck card b = [] ↔
      ∃ e, card.scores b = some e ∧
        0 ≤ e.score ∧ e.score ≤ 100 ∧ 0 ≤ e.stderr ∧ 0 < e.n_samples := by
  unfold columnCheck
  cases hs : card.scores b with
  | none => simp
  | some e => simp [scoreEntryCheck_eq_nil_iff]

/-- The date check passes exactly when the column is present, parses as
a valid calendar date and is not in the future. -/
theorem dateCheck_eq_nil_iff (today : Date) (card : ModelCard) :
    dateCheck today card = [] ↔
      ∃ d dt, card.date = some d ∧ parseDate d = some dt ∧
        dateValid dt = true ∧ dateLE dt today = true := by
  unfold dateCheck
  cases hd : card.date with
  | none => simp
  | some d =>
    cases hp : parseDate d with
    | none => simp [hp]
    | some dt =>
      by_cases h1 : dateValid dt = true <;>
        by_cases h2 : dateLE dt today = true <;>
          simp [hp, h1, h2]

/-- Claim C4: the Schema Validator returns an empty failure list iff all
required columns are present, the model identifier matches the
`"name (Provider)"` pattern with a recognized provider, every benchmark
score triple is in range with a positive sample count, and the submitted
date parses as a valid calendar date not in the future.  (The validator
is a pure function of the record and the current date.) -/
theorem schemaValidator_pass_iff (today : Date) (card : ModelCard) :
    schemaValidator today card = [] ↔
      ((∃ m, card.model = some m ∧ MatchesModelIdSpec m) ∧
        (∀ b : Benchmark, ∃ e, card.scores b = some e ∧
          0 ≤ e.score ∧ e.score ≤ 100 ∧ 0 ≤ e.stderr ∧ 0 < e.n_samples) ∧
        (∃ d dt, card.date = some d ∧ parseDate d = some dt ∧
          dateValid dt = true ∧ dateLE dt today = true)) := by
  unfold schemaValidator
  simp only [List.append_eq_nil]
  rw [modelCheck_eq_nil_iff, dateCheck_eq_nil_iff,
    columnCheck_eq_nil_iff, columnCheck_eq_nil_iff,
    columnCheck_eq_nil_iff, columnCheck_eq_nil_iff]
  constructor
  · rintro ⟨⟨⟨⟨⟨hm, h1⟩, h2⟩, h3⟩, h4⟩, hdate⟩
    exact ⟨hm, fun b => by cases b <;> assumption, hdate⟩
  · rintro ⟨hm, hall, hdate⟩
    exact ⟨⟨⟨⟨⟨hm, hall _⟩, hall _⟩, hall _⟩, hall _⟩, hdate⟩

/-- The two copies of the difficulty table are the same function. -/
theorem benchmarkDifficulty_copies : Dashboard.benchmarkDifficulty
    = ModelsPage.benchmarkDifficulty := rfl

/-- The two copies of the slope table are the same function. -/
theorem benchmarkSlope_copies : Dashboard.benchmarkSlope
    = ModelsPage.benchmarkSlope := rfl

/-- Claim C9: the two copies of `calculateTCI` — in the
`TelcoCapabilityIndex` component and in `ModelsPage` — are extensionally
equal: on entries carrying the same four benchmark scores (for any
combination of absent and present values) they return the same
result. -/
theorem calculateTCI_copies_agree (log : ℚ → ℚ)
    (e : Dashboard.LeaderboardEntry) (e' : ModelsPage.LeaderboardEntry)
    (h1 : e.teleqna = e'.teleqna) (h2 : e.telelogs = e'.telelogs)
    (h3 : e.telemath = e'.telemath) (h4 : e.tsg = e'.tsg) :
    Dashboard.calculateTCI log e = ModelsPage.calculateTCI log e' := by
  unfold Dashboard.calculateTCI ModelsPage.calculateTCI
  rw [h1, h2, h3, h4, benchmarkDifficulty_copies, benchmarkSlope_copies]

/-- Concrete instance of the copy-agreement theorem on an entry with all
four scores present. -/
theorem calculateTCI_copies_agree_witness :
    Dashboard.calculateTCI id sampleEntry
      = ModelsPage.calculateTCI id sampleEntryMP :=
  calculateTCI_copies_agree id sampleEntry sampleEntryMP rfl rfl rfl rfl

/-- Claim C10: `calculateTCI` is total with a guarded division: it
returns `none` exactly when fewer than 3 of the four benchmark scores
are present, and whenever at least 3 are present the accumulated
`totalWeight` divisor is strictly positive. -/
theorem calculateTCI_total_guarded (log : ℚ → ℚ)
    (e : Dashboard.LeaderboardEntry) :
    (Dashboard.calculateTCI log e = none ↔ Dashboard.countScores e < 3) ∧
      (3 ≤ Dashboard.countScores e → 0 < Dashboard.totalWeight e) := by
  rcases e with ⟨rank, prov, mdl, repo, mean, q, l, m, t, y⟩
  constructor
  · rcases q with _ | q <;> rcases l with _ | l <;>
      rcases m with _ | m <;> rcases t with _ | t <;>
        simp [Dashboard.calculateTCI, Dashboard.countScores]
  · rcases q with _ | q <;> rcases l with _ | l <;>
      rcases m with _ | m <;> rcases t with _ | t <;>
        simp [Dashboard.countScores, Dashboard.totalWeight,
          Dashboard.benchmarkDifficulty, Dashboard.benchmarkSlope] <;>
          norm_num

/-- Concrete instance of the totality theorem: on an entry with all four
scores, `calculateTCI` is non-`none` and the divisor is positive. -/
theorem calculateTCI_total_guarded_witness :
    3 ≤ Dashboard.countScores sampleEntry ∧
      ¬ Dashboard.calculateTCI id sampleEntry = none ∧
      0 < Dashboard.totalWeight sampleEntry := by
  have h := calculateTCI_total_guarded id sampleEntry
  refine ⟨by decide, ?_, h.2 (by decide)⟩
  intro hnone
  have := h.1.mp hnone
  revert this
  decide

end OpenTelco
